import Mathlib

/-!
Verification development for the dialect-selection + route-extraction +
aggregation engine of `samcli/commands/local/lib/api_provider.py`.

The orchestrator (`ApiProvider`) and the dialect selector
(`ApiProvider.find_api_provider`) are embedded directly from the source file.
The sibling components it calls (`ApiCollector`, `SamApiProvider`,
`CfnApiProvider`, `SamBaseProvider.get_template`) live in files not present in
this snapshot; their behaviour is modelled from the specification (marked
`Modelled from the spec:` on each such definition).

Python dictionaries preserve insertion order, so a resource mapping is
embedded as an association list `List (String × Resource)`; `resources.items()`
iteration is structural recursion over that list.
-/

namespace SamCli

/-- Provenance of a route: declared as an event on a function resource, or by
an explicit gateway resource / route-definition document (spec §3). -/
inductive EventSourceKind where
  | implicitFunctionEvent
  | explicitGatewayResource
deriving DecidableEq, Repr

/-- Modelled from the spec: the `Route` value type (spec §3) produced by the
strategies and collected into an `Api`.  One `Route` per (path, method)
binding to a target function. -/
structure Route where
  path : String
  method : String
  functionName : String
  eventKind : EventSourceKind
deriving DecidableEq, Repr

/-- Modelled from the spec: the route identity used by the collector's merge
rule — the (normalized path, HTTP method) pair, method compared
case-insensitively (spec §3). -/
def Route.sameKey (r₁ r₂ : Route) : Bool :=
  r₁.path == r₂.path && r₁.method.toUpper == r₂.method.toUpper

/-- Modelled from the spec: an HTTP trigger event attached to a function
resource in the Declarative dialect; its required route fields (path, method)
may be absent in a malformed template (spec §4.2). -/
structure HttpEvent where
  path? : Option String := none
  method? : Option String := none
deriving DecidableEq, Repr

/-- Modelled from the spec: the `Properties` sub-mapping of a resource,
restricted to the fields this engine reads (spec §3, §4.2).  Every field is
optional, mirroring dictionary lookups that may miss. -/
structure ResourceProps where
  events : List HttpEvent := []
  stageName? : Option String := none
  stageVariables? : Option (List (String × String)) := none
  binaryMediaTypes? : Option (List String) := none
  cors? : Option String := none
  definitionBody? : Option (List Route) := none
  definitionUri? : Option String := none
  restPath? : Option String := none
  restMethod? : Option String := none
  restTarget? : Option String := none
deriving DecidableEq, Repr

/-- A resource entry from the input mapping: a required `Type` discriminator
(which a malformed entry may nevertheless lack, hence `Option` — matching
`resource.get(RESOURCE_TYPE)` in the source) and a `Properties` sub-mapping. -/
structure Resource where
  type? : Option String := none
  properties : ResourceProps := {}
deriving DecidableEq, Repr

/-- Modelled from the spec: the `Api` value (spec §3) — routes in discovery
order after merge, plus API-level properties. -/
structure Api where
  routes : List Route
  stageName? : Option String
  stageVariables : List (String × String)
  binaryMediaTypes : List String
  cors? : Option String
deriving DecidableEq, Repr

/-- Modelled from the spec: the Route Collector (spec §4.3), the mutable
accumulator owned by one extraction pass. -/
structure ApiCollector where
  routes : List Route := []
  stageName? : Option String := none
  stageVariables : List (String × String) := []
  binaryMediaTypes : List String := []
  cors? : Option String := none
deriving DecidableEq, Repr

/-- The collector constructed at the start of an extraction pass
(`ApiCollector()` in `_extract_api`). -/
def ApiCollector.empty : ApiCollector := {}

/-- Modelled from the spec: `add_route`, keyed by (path, method).  If a route
with the same key already exists the incoming call is a no-op for routing
purposes; scalar metadata keeps the first writer (spec §4.3), which for the
all-scalar `Route` record means the existing entry stands unchanged. -/
def ApiCollector.addRoute (c : ApiCollector) (r : Route) : ApiCollector :=
  if c.routes.any (fun r₀ => Route.sameKey r₀ r) then c
  else { c with routes := c.routes ++ [r] }

/-- Modelled from the spec: `set_properties` with partial-update semantics — a
`some` argument overwrites the field, a `none` argument (the omitted keyword)
leaves the prior value untouched (spec §4.3). -/
def ApiCollector.setProperties (c : ApiCollector) (sn : Option String)
    (sv : Option (List (String × String))) (bmt : Option (List String))
    (cors : Option String) : ApiCollector :=
  { c with
    stageName? := match sn with | some v => some v | none => c.stageName?
    stageVariables := match sv with | some v => v | none => c.stageVariables
    binaryMediaTypes := match bmt with | some v => v | none => c.binaryMediaTypes
    cors? := match cors with | some v => some v | none => c.cors? }

/-- Modelled from the spec: `finalize()` / `get_api()` — freezes the collector
state into an `Api` (spec §4.3). -/
def ApiCollector.getApi (c : ApiCollector) : Api :=
  { routes := c.routes
    stageName? := c.stageName?
    stageVariables := c.stageVariables
    binaryMediaTypes := c.binaryMediaTypes
    cors? := c.cors? }

namespace SamApiProvider

/-- The Declarative (SAM) function resource type. -/
def SERVERLESS_FUNCTION : String := "AWS::Serverless::Function"

/-- The Declarative (SAM) standalone API resource type. -/
def SERVERLESS_API : String := "AWS::Serverless::Api"

/-- Modelled from the spec: `SamApiProvider.TYPES`, the Declarative dialect's
recognized resource type set (the serverless function and serverless API
resource kinds); `sam_api_provider.py` is not in this snapshot. -/
def TYPES : List String := [SERVERLESS_FUNCTION, SERVERLESS_API]

end SamApiProvider

namespace CfnApiProvider

/-- The Explicit-Gateway REST API resource type. -/
def APIGATEWAY_RESTAPI : String := "AWS::ApiGateway::RestApi"

/-- The Explicit-Gateway method resource type. -/
def APIGATEWAY_METHOD : String := "AWS::ApiGateway::Method"

/-- Modelled from the spec: `CfnApiProvider.TYPES`, the Explicit-Gateway
dialect's recognized resource type set; `cfn_api_provider.py` is not in this
snapshot. -/
def TYPES : List String := [APIGATEWAY_RESTAPI, APIGATEWAY_METHOD]

end CfnApiProvider

/-- Membership test `resource.get(CfnBaseApiProvider.RESOURCE_TYPE) in types`: a missing
`Type` key (`None`) is a member of neither type set, since both sets hold
only strings. -/
def typeMem (t? : Option String) (types : List String) : Bool :=
  match t? with
  | some t => types.contains t
  | none => false

/-- Whether a resource's type belongs to either dialect's recognized set. -/
def matchesEither (r : Resource) : Bool :=
  typeMem r.type? SamApiProvider.TYPES || typeMem r.type? CfnApiProvider.TYPES

/-- The two strategy variants the selector can return (spec §9 models the
source's class-valued dispatch as a tagged variant). -/
inductive ApiProviderKind where
  | sam
  | cfn
deriving DecidableEq, Repr

/-- Embeds `ApiProvider.find_api_provider` (api_provider.py lines 73–94): iterate the
resource mapping in order; for each resource test Declarative membership
first, then Explicit-Gateway membership; return on the first match; default
to the Declarative provider when iteration completes with no match. -/
def findApiProvider : List (String × Resource) → ApiProviderKind
  | [] => .sam
  | (_, r) :: rest =>
    if typeMem r.type? SamApiProvider.TYPES then .sam
    else if typeMem r.type? CfnApiProvider.TYPES then .cfn
    else findApiProvider rest

/-- Modelled from the spec: deriving one Route from an HTTP trigger event on a
function resource — requires both path and method; a missing required field
yields no route (the event is malformed, spec §4.2 error policy). -/
def routeFromEvent (fname : String) (ev : HttpEvent) : Option Route :=
  match ev.path?, ev.method? with
  | some p, some m =>
    some { path := p, method := m, functionName := fname
           eventKind := .implicitFunctionEvent }
  | _, _ => none

/-- Adding every route of a route-definition document to the collector, in
document order. -/
def addBodyRoutes (c : ApiCollector) (routes : List Route) : ApiCollector :=
  routes.foldl ApiCollector.addRoute c

/-- The warning logged when an event is skipped for a missing required field. -/
def skipWarning (fname : String) : String :=
  "Event on resource " ++ fname ++ " is missing a required field; skipped"

namespace SamApiProvider

/-- Modelled from the spec: the Declarative Strategy's walk over one function
resource's events sub-mapping — each well-formed HTTP event yields one Route;
a malformed event is skipped with a logged warning and the walk continues
(spec §4.2). -/
def extractEvents (fname : String) :
    List HttpEvent → ApiCollector → List String → ApiCollector × List String
  | [], c, w => (c, w)
  | ev :: rest, c, w =>
    match routeFromEvent fname ev with
    | some r => extractEvents fname rest (c.addRoute r) w
    | none => extractEvents fname rest c (w ++ [skipWarning fname])

end SamApiProvider

/-- Modelled from the spec: processing a standalone API / gateway resource —
report its stage/CORS/binary-media properties to the collector; expand an
embedded route-definition document into Routes; an externally referenced
document is resolved by the external collaborator `resolve`, and a resolution
failure aborts the pass (spec §4.2, §7). -/
def extractApiResource (resolve : String → Except String (List Route))
    (r : Resource) (c : ApiCollector) : Except String ApiCollector :=
  let c := c.setProperties r.properties.stageName? r.properties.stageVariables?
    r.properties.binaryMediaTypes? r.properties.cors?
  match r.properties.definitionBody? with
  | some routes => .ok (addBodyRoutes c routes)
  | none =>
    match r.properties.definitionUri? with
    | some uri =>
      match resolve uri with
      | .ok routes => .ok (addBodyRoutes c routes)
      | .error e => .error e
    | none => .ok c

namespace SamApiProvider

/-- Modelled from the spec: the Declarative Strategy's treatment of one
resource — function resources contribute routes from their events; standalone
serverless API resources contribute API-level properties and any embedded or
referenced route-definition document; every other resource is ignored
(spec §4.2). -/
def processResource (resolve : String → Except String (List Route))
    (entry : String × Resource) (c : ApiCollector) (w : List String) :
    Except String (ApiCollector × List String) :=
  if entry.2.type? = some SERVERLESS_FUNCTION then
    .ok (extractEvents entry.1 entry.2.properties.events c w)
  else if entry.2.type? = some SERVERLESS_API then
    match extractApiResource resolve entry.2 c with
    | .ok c' => .ok (c', w)
    | .error e => .error e
  else
    .ok (c, w)

/-- Modelled from the spec: the Declarative Strategy's walk over the whole
resource mapping, threading the collector and the warning log; a pass-level
failure (unresolvable external document) aborts the walk (spec §4.2, §7). -/
def extractAux (resolve : String → Except String (List Route)) :
    List (String × Resource) → ApiCollector → List String →
    Except String (ApiCollector × List String)
  | [], c, w => .ok (c, w)
  | entry :: rest, c, w =>
    match processResource resolve entry c w with
    | .ok (c', w') => extractAux resolve rest c' w'
    | .error e => .error e

/-- Modelled from the spec: `SamApiProvider.extract_resources` — the
Declarative Strategy entry point (spec §4.2). -/
def extractResources (resolve : String → Except String (List Route))
    (resources : List (String × Resource)) (c : ApiCollector) :
    Except String (ApiCollector × List String) :=
  extractAux resolve resources c []

end SamApiProvider

namespace CfnApiProvider

/-- Modelled from the spec: the Explicit-Gateway Strategy's treatment of one
resource — a REST API resource contributes API-level properties and any
route-definition document; a method resource yields one Route for its
declared path/method with target resolved from the integration, skipped with
a warning when a required field is missing; every other resource is ignored
(spec §4.2). -/
def processResource (resolve : String → Except String (List Route))
    (entry : String × Resource) (c : ApiCollector) (w : List String) :
    Except String (ApiCollector × List String) :=
  if entry.2.type? = some APIGATEWAY_RESTAPI then
    match extractApiResource resolve entry.2 c with
    | .ok c' => .ok (c', w)
    | .error e => .error e
  else if entry.2.type? = some APIGATEWAY_METHOD then
    match entry.2.properties.restPath?, entry.2.properties.restMethod?,
        entry.2.properties.restTarget? with
    | some p, some m, some t =>
      .ok (c.addRoute { path := p, method := m, functionName := t
                        eventKind := .explicitGatewayResource }, w)
    | _, _, _ => .ok (c, w ++ [skipWarning entry.1])
  else
    .ok (c, w)

/-- Modelled from the spec: the Explicit-Gateway Strategy's walk over the
whole resource mapping (spec §4.2). -/
def extractAux (resolve : String → Except String (List Route)) :
    List (String × Resource) → ApiCollector → List String →
    Except String (ApiCollector × List String)
  | [], c, w => .ok (c, w)
  | entry :: rest, c, w =>
    match processResource resolve entry c w with
    | .ok (c', w') => extractAux resolve rest c' w'
    | .error e => .error e

/-- Modelled from the spec: `CfnApiProvider.extract_resources` — the
Explicit-Gateway Strategy entry point (spec §4.2). -/
def extractResources (resolve : String → Except String (List Route))
    (resources : List (String × Resource)) (c : ApiCollector) :
    Except String (ApiCollector × List String) :=
  extractAux resolve resources c []

end CfnApiProvider

/-- Dispatch on the strategy variant returned by the selector
(`provider.extract_resources(resources, collector, cwd=self.cwd)`); the
external document resolver stands in for the cwd-based Swagger reader. -/
def runProvider (resolve : String → Except String (List Route))
    (k : ApiProviderKind) (resources : List (String × Resource))
    (c : ApiCollector) : Except String (ApiCollector × List String) :=
  match k with
  | .sam => SamApiProvider.extractResources resolve resources c
  | .cfn => CfnApiProvider.extractResources resolve resources c

namespace ApiProvider

/-- Embeds `ApiProvider._extract_api` (api_provider.py lines 54–71): construct a
fresh collector, select the provider for the resource mapping, run it over
all the resources, and finalize the collector into an `Api`. -/
def extractApi (resolve : String → Except String (List Route))
    (resources : List (String × Resource)) : Except String Api :=
  let collector := ApiCollector.empty
  let provider := findApiProvider resources
  match runProvider resolve provider resources collector with
  | .ok (c, _) => .ok c.getApi
  | .error e => .error e

end ApiProvider

/-- The normalized template dictionary, restricted to the one key this engine
reads: `template_dict.get("Resources", {})` returns the stored mapping or an
empty one when the key is absent. -/
structure TemplateDict where
  resources? : Option (List (String × Resource)) := none
deriving DecidableEq, Repr

/-- Modelled from the spec: `SamBaseProvider.get_template` is the external
template-normalization collaborator (spec §6); this engine assumes
normalization has already happened and performs no further substitution, so
on an already-normalized template it is the identity. -/
def SamBaseProvider.getTemplate (t : TemplateDict)
    (_parameterOverrides : Option (List (String × String))) : TemplateDict :=
  t

/-- The orchestrator object with the fields `__init__` stores
(api_provider.py lines 16–43). -/
structure ApiProviderState where
  templateDict : TemplateDict
  resources : List (String × Resource)
  cwd : Option String
  api : Api
  routes : List Route
deriving DecidableEq, Repr

namespace ApiProvider

/-- Embeds `ApiProvider.__init__` (api_provider.py lines 16–43): normalize the
template, substitute an empty mapping when `"Resources"` is absent, and run
the single extraction pass, storing its `Api` and routes.  An extraction
failure propagates to the caller as `Except.error`. -/
def init (resolve : String → Except String (List Route)) (templateDict : TemplateDict)
    (parameterOverrides : Option (List (String × String))) (cwd : Option String) :
    Except String ApiProviderState :=
  let td := SamBaseProvider.getTemplate templateDict parameterOverrides
  let resources := td.resources?.getD []
  match extractApi resolve resources with
  | .ok api =>
    .ok { templateDict := td, resources := resources, cwd := cwd
          api := api, routes := api.routes }
  | .error e => .error e

end ApiProvider

/-- Embeds `ApiProvider.get_all` (api_provider.py lines 45–52): a generator yielding
the single stored `Api`, embedded as the one-element list it produces. -/
def ApiProviderState.getAll (p : ApiProviderState) : List Api :=
  [p.api]

/-- One collector operation issued by a strategy during an extraction pass
(spec §4.3's interface). -/
inductive CollectorOp where
  | addRoute (r : Route)
  | setProperties (sn : Option String) (sv : Option (List (String × String)))
      (bmt : Option (List String)) (cors : Option String)
deriving Repr

/-- Run a sequence of collector operations. -/
def applyOps (ops : List CollectorOp) (c : ApiCollector) : ApiCollector :=
  ops.foldl
    (fun c op =>
      match op with
      | .addRoute r => c.addRoute r
      | .setProperties sn sv bmt cors => c.setProperties sn sv bmt cors)
    c

/-! ### Invariant machinery: route-key distinctness and collector monotonicity -/

/-- Route lists in which no two entries share the same (path, method) key. -/
def distinctKeys (l : List Route) : Prop :=
  l.Pairwise (fun a b => Route.sameKey a b = false)

/-- Relation between collector states: the second extends the first by
appending routes at the end (the collector never deletes or reorders). -/
def routesExtend (c c' : ApiCollector) : Prop :=
  ∃ tail, c'.routes = c.routes ++ tail

/-- Combined per-step invariant: routes only grow, and key-distinctness is
preserved. -/
def stepOK (c c' : ApiCollector) : Prop :=
  routesExtend c c' ∧ (distinctKeys c.routes → distinctKeys c'.routes)

/-! ### Concrete sample data used by witness theorems -/

/-- The route declared by the sample function resource below. -/
def rSample : Route :=
  { path := "/hello", method := "GET", functionName := "HelloFunction"
    eventKind := .implicitFunctionEvent }

/-- A declarative function resource with one well-formed HTTP event. -/
def funcResource : Resource :=
  { type? := some SamApiProvider.SERVERLESS_FUNCTION
    properties := { events := [{ path? := some "/hello", method? := some "GET" }] } }

/-- An explicit-gateway REST API resource with no properties. -/
def cfnResource : Resource :=
  { type? := some CfnApiProvider.APIGATEWAY_RESTAPI }

/-- A resource whose type is recognized by neither dialect. -/
def otherResource : Resource :=
  { type? := some "AWS::DynamoDB::Table" }

/-- An HTTP event missing its required method field. -/
def malformedEvent : HttpEvent := { path? := some "/broken" }

/-- A declarative API resource referencing an external route-definition
document. -/
def apiResourceBadUri : Resource :=
  { type? := some SamApiProvider.SERVERLESS_API
    properties := { definitionUri? := some "swagger.yaml" } }

/-- An explicit-gateway method resource missing its required integration
target. -/
def methodResourceMalformed : Resource :=
  { type? := some CfnApiProvider.APIGATEWAY_METHOD
    properties := { restPath? := some "/items", restMethod? := some "DELETE" } }

/-- An external resolver that always fails. -/
def failResolve : String → Except String (List Route) := fun _ => .error "boom"

/-- An external resolver that always succeeds with an empty document. -/
def okResolve : String → Except String (List Route) := fun _ => .ok []

/-- The Api produced by finalizing an untouched collector. -/
def emptyApi : Api := ApiCollector.empty.getApi

/-- The sample resource mapping holding only `funcResource`. -/
def resSample : List (String × Resource) := [("HelloFunction", funcResource)]

/-- The Api extracted from `resSample`. -/
def apiSample : Api :=
  { routes := [rSample], stageName? := none, stageVariables := []
    binaryMediaTypes := [], cors? := none }

/-- The orchestrator state built from an explicitly empty resource mapping. -/
def pSample : ApiProviderState :=
  { templateDict := { resources? := some [] }, resources := [], cwd := none
    api := emptyApi, routes := [] }

theorem routesExtend_refl (c : ApiCollector) : routesExtend c c :=
  ⟨[], (List.append_nil _).symm⟩

theorem routesExtend_trans {a b c : ApiCollector} (h₁ : routesExtend a b)
    (h₂ : routesExtend b c) : routesExtend a c := by
  obtain ⟨t₁, e₁⟩ := h₁
  obtain ⟨t₂, e₂⟩ := h₂
  exact ⟨t₁ ++ t₂, by rw [e₂, e₁, List.append_assoc]⟩

theorem stepOK_refl (c : ApiCollector) : stepOK c c :=
  ⟨routesExtend_refl c, id⟩

theorem stepOK_trans {a b c : ApiCollector} (h₁ : stepOK a b) (h₂ : stepOK b c) :
    stepOK a c :=
  ⟨routesExtend_trans h₁.1 h₂.1, fun h => h₂.2 (h₁.2 h)⟩

theorem addRoute_extend (c : ApiCollector) (r : Route) :
    routesExtend c (c.addRoute r) := by
  unfold ApiCollector.addRoute
  split
  · exact routesExtend_refl c
  · exact ⟨[r], rfl⟩

theorem addRoute_distinct {c : ApiCollector} (r : Route)
    (h : distinctKeys c.routes) : distinctKeys (c.addRoute r).routes := by
  unfold ApiCollector.addRoute
  split
  · exact h
  · rename_i hany
    simp only [List.any_eq_true, not_exists, not_and, Bool.not_eq_true] at hany
    refine List.pairwise_append.2 ⟨h, List.pairwise_singleton _ _, ?_⟩
    intro a ha b hb
    rw [List.mem_singleton] at hb
    subst hb
    exact hany a ha

theorem stepOK_addRoute (c : ApiCollector) (r : Route) : stepOK c (c.addRoute r) :=
  ⟨addRoute_extend c r, fun h => addRoute_distinct r h⟩

theorem setProperties_routes (c : ApiCollector) (sn : Option String)
    (sv : Option (List (String × String))) (bmt : Option (List String))
    (cors : Option String) :
    (ApiCollector.setProperties c sn sv bmt cors).routes = c.routes := rfl

theorem stepOK_setProperties (c : ApiCollector) (sn : Option String)
    (sv : Option (List (String × String))) (bmt : Option (List String))
    (cors : Option String) : stepOK c (c.setProperties sn sv bmt cors) := by
  constructor
  · exact ⟨[], by rw [setProperties_routes, List.append_nil]⟩
  · intro h
    rwa [distinctKeys, setProperties_routes]

theorem stepOK_addBodyRoutes (routes : List Route) (c : ApiCollector) :
    stepOK c (addBodyRoutes c routes) := by
  induction routes generalizing c with
  | nil => exact stepOK_refl c
  | cons r rest ih =>
    have step : addBodyRoutes c (r :: rest) = addBodyRoutes (c.addRoute r) rest := rfl
    rw [step]
    exact stepOK_trans (stepOK_addRoute c r) (ih (c.addRoute r))

theorem stepOK_extractEvents (fname : String) (evs : List HttpEvent)
    (c : ApiCollector) (w : List String) :
    stepOK c (SamApiProvider.extractEvents fname evs c w).1 := by
  induction evs generalizing c w with
  | nil => exact stepOK_refl c
  | cons ev rest ih =>
    simp only [SamApiProvider.extractEvents]
    cases hre : routeFromEvent fname ev with
    | some r => exact stepOK_trans (stepOK_addRoute c r) (ih (c.addRoute r) w)
    | none => exact ih c (w ++ [skipWarning fname])

theorem stepOK_extractApiResource (resolve : String → Except String (List Route))
    (r : Resource) (c c' : ApiCollector)
    (h : extractApiResource resolve r c = .ok c') : stepOK c c' := by
  have base := stepOK_setProperties c r.properties.stageName?
    r.properties.stageVariables? r.properties.binaryMediaTypes? r.properties.cors?
  simp only [extractApiResource] at h
  cases hb : r.properties.definitionBody? with
  | some routes =>
    rw [hb] at h
    injection h with h'
    rw [← h']
    exact stepOK_trans base (stepOK_addBodyRoutes routes _)
  | none =>
    rw [hb] at h
    simp only [] at h
    cases hu : r.properties.definitionUri? with
    | some uri =>
      rw [hu] at h
      simp only [] at h
      cases hr : resolve uri with
      | ok routes =>
        rw [hr] at h
        injection h with h'
        rw [← h']
        exact stepOK_trans base (stepOK_addBodyRoutes routes _)
      | error e => rw [hr] at h; cases h
    | none =>
      rw [hu] at h
      injection h with h'
      rw [← h']
      exact base

theorem stepOK_sam_processResource (resolve : String → Except String (List Route))
    (entry : String × Resource) (c c' : ApiCollector) (w w' : List String)
    (h : SamApiProvider.processResource resolve entry c w = .ok (c', w')) :
    stepOK c c' := by
  unfold SamApiProvider.processResource at h
  split at h
  · injection h with h'
    have hc : _ = c' := congrArg Prod.fst h'
    exact hc ▸ stepOK_extractEvents entry.1 entry.2.properties.events c w
  · split at h
    · cases hE : extractApiResource resolve entry.2 c with
      | ok c₁ =>
        rw [hE] at h
        injection h with h'
        have hc : _ = c' := congrArg Prod.fst h'
        exact hc ▸ stepOK_extractApiResource resolve entry.2 c c₁ hE
      | error e => rw [hE] at h; cases h
    · injection h with h'
      have hc : _ = c' := congrArg Prod.fst h'
      exact hc ▸ stepOK_refl c

theorem stepOK_cfn_processResource (resolve : String → Except String (List Route))
    (entry : String × Resource) (c c' : ApiCollector) (w w' : List String)
    (h : CfnApiProvider.processResource resolve entry c w = .ok (c', w')) :
    stepOK c c' := by
  unfold CfnApiProvider.processResource at h
  split at h
  · cases hE : extractApiResource resolve entry.2 c with
    | ok c₁ =>
      rw [hE] at h
      injection h with h'
      have hc : _ = c' := congrArg Prod.fst h'
      exact hc ▸ stepOK_extractApiResource resolve entry.2 c c₁ hE
    | error e => rw [hE] at h; cases h
  · split at h
    · split at h
      · injection h with h'
        have hc : _ = c' := congrArg Prod.fst h'
        exact hc ▸ stepOK_addRoute c _
      · injection h with h'
        have hc : _ = c' := congrArg Prod.fst h'
        exact hc ▸ stepOK_refl c
    · injection h with h'
      have hc : _ = c' := congrArg Prod.fst h'
      exact hc ▸ stepOK_refl c

theorem stepOK_sam_extractAux (resolve : String → Except String (List Route))
    (res : List (String × Resource)) :
    ∀ (c c' : ApiCollector) (w w' : List String),
      SamApiProvider.extractAux resolve res c w = .ok (c', w') → stepOK c c' := by
  induction res with
  | nil =>
    intro c c' w w' h
    injection h with h'
    have hc : _ = c' := congrArg Prod.fst h'
    exact hc ▸ stepOK_refl c
  | cons entry rest ih =>
    intro c c' w w' h
    simp only [SamApiProvider.extractAux] at h
    cases hp : SamApiProvider.processResource resolve entry c w with
    | ok p =>
      obtain ⟨c₁, w₁⟩ := p
      rw [hp] at h
      exact stepOK_trans (stepOK_sam_processResource resolve entry c c₁ w w₁ hp)
        (ih c₁ c' w₁ w' h)
    | error e => rw [hp] at h; cases h

theorem stepOK_cfn_extractAux (resolve : String → Except String (List Route))
    (res : List (String × Resource)) :
    ∀ (c c' : ApiCollector) (w w' : List String),
      CfnApiProvider.extractAux resolve res c w = .ok (c', w') → stepOK c c' := by
  induction res with
  | nil =>
    intro c c' w w' h
    injection h with h'
    have hc : _ = c' := congrArg Prod.fst h'
    exact hc ▸ stepOK_refl c
  | cons entry rest ih =>
    intro c c' w w' h
    simp only [CfnApiProvider.extractAux] at h
    cases hp : CfnApiProvider.processResource resolve entry c w with
    | ok p =>
      obtain ⟨c₁, w₁⟩ := p
      rw [hp] at h
      exact stepOK_trans (stepOK_cfn_processResource resolve entry c c₁ w w₁ hp)
        (ih c₁ c' w₁ w' h)
    | error e => rw [hp] at h; cases h

theorem stepOK_runProvider (resolve : String → Except String (List Route))
    (k : ApiProviderKind) (res : List (String × Resource)) (c c' : ApiCollector)
    (w' : List String) (h : runProvider resolve k res c = .ok (c', w')) :
    stepOK c c' := by
  cases k with
  | sam => exact stepOK_sam_extractAux resolve res c c' [] w' h
  | cfn => exact stepOK_cfn_extractAux resolve res c c' [] w' h

/-! ### Selector lemmas -/

theorem matchesEither_none_types {r : Resource} (h : matchesEither r = false) :
    typeMem r.type? SamApiProvider.TYPES = false ∧
    typeMem r.type? CfnApiProvider.TYPES = false := by
  unfold matchesEither at h
  exact Bool.or_eq_false_iff.1 h

theorem type_ne_of_noMatch {r : Resource} (h : matchesEither r = false) :
    r.type? ≠ some SamApiProvider.SERVERLESS_FUNCTION ∧
    r.type? ≠ some SamApiProvider.SERVERLESS_API := by
  obtain ⟨hs, _⟩ := matchesEither_none_types h
  constructor <;> intro heq <;> rw [heq] at hs <;> revert hs <;> decide

theorem findApiProvider_default (res : List (String × Resource))
    (h : ∀ e ∈ res, matchesEither e.2 = false) : findApiProvider res = .sam := by
  induction res with
  | nil => rfl
  | cons e rest ih =>
    obtain ⟨n₀, r₀⟩ := e
    obtain ⟨hs, hc⟩ := matchesEither_none_types (h _ (List.mem_cons_self _ _))
    have hs' : typeMem r₀.type? SamApiProvider.TYPES = false := hs
    have hc' : typeMem r₀.type? CfnApiProvider.TYPES = false := hc
    simp only [findApiProvider, hs', hc', Bool.false_eq_true, if_false]
    exact ih (fun x hx => h x (List.mem_cons_of_mem _ hx))

theorem sam_extractAux_noMatch (resolve : String → Except String (List Route))
    (res : List (String × Resource)) (h : ∀ e ∈ res, matchesEither e.2 = false)
    (c : ApiCollector) (w : List String) :
    SamApiProvider.extractAux resolve res c w = .ok (c, w) := by
  induction res with
  | nil => rfl
  | cons e rest ih =>
    obtain ⟨h1, h2⟩ := type_ne_of_noMatch (h e (List.mem_cons_self _ _))
    simp only [SamApiProvider.extractAux, SamApiProvider.processResource]
    rw [if_neg h1, if_neg h2]
    exact ih (fun x hx => h x (List.mem_cons_of_mem _ hx))

/-! ### Collector lemmas -/

theorem sameKey_of_eq {a b : Route} (hp : a.path = b.path) (hm : a.method = b.method) :
    Route.sameKey a b = true := by
  simp [Route.sameKey, hp, hm]

theorem pairwise_ne_of_distinctKeys {l : List Route} (h : distinctKeys l) :
    l.Pairwise (fun a b => ¬(a.path = b.path ∧ a.method = b.method)) := by
  refine h.imp ?_
  intro a b hab hcon
  rw [sameKey_of_eq hcon.1 hcon.2] at hab
  cases hab

theorem stepOK_applyOps (ops : List CollectorOp) (c : ApiCollector) :
    stepOK c (applyOps ops c) := by
  induction ops generalizing c with
  | nil => exact stepOK_refl c
  | cons op ops ih =>
    cases op with
    | addRoute r =>
      have step : applyOps (CollectorOp.addRoute r :: ops) c
          = applyOps ops (c.addRoute r) := rfl
      rw [step]
      exact stepOK_trans (stepOK_addRoute c r) (ih _)
    | setProperties sn sv bmt cors =>
      have step : applyOps (CollectorOp.setProperties sn sv bmt cors :: ops) c
          = applyOps ops (c.setProperties sn sv bmt cors) := rfl
      rw [step]
      exact stepOK_trans (stepOK_setProperties c sn sv bmt cors) (ih _)

/-! ### Abort characterization: only the external resolver can fail a pass -/

theorem extractApiResource_ne_error {resolve' : String → Except String (List Route)}
    (hres : ∀ (u e' : String), resolve' u ≠ .error e') (r : Resource)
    (c : ApiCollector) (e' : String) :
    extractApiResource resolve' r c ≠ .error e' := by
  intro hcon
  simp only [extractApiResource] at hcon
  cases hb : r.properties.definitionBody? with
  | some routes => rw [hb] at hcon; cases hcon
  | none =>
    rw [hb] at hcon
    simp only [] at hcon
    cases hu : r.properties.definitionUri? with
    | some uri =>
      rw [hu] at hcon
      simp only [] at hcon
      cases hr : resolve' uri with
      | ok routes => rw [hr] at hcon; cases hcon
      | error e₂ => exact hres uri e₂ hr
    | none => rw [hu] at hcon; cases hcon

theorem sam_processResource_ne_error {resolve' : String → Except String (List Route)}
    (hres : ∀ (u e' : String), resolve' u ≠ .error e') (entry : String × Resource)
    (c : ApiCollector) (w : List String) (e' : String) :
    SamApiProvider.processResource resolve' entry c w ≠ .error e' := by
  intro hcon
  unfold SamApiProvider.processResource at hcon
  split at hcon
  · cases hcon
  · split at hcon
    · cases hE : extractApiResource resolve' entry.2 c with
      | ok c₁ => rw [hE] at hcon; cases hcon
      | error e₂ => exact extractApiResource_ne_error hres entry.2 c e₂ hE
    · cases hcon

theorem cfn_processResource_ne_error {resolve' : String → Except String (List Route)}
    (hres : ∀ (u e' : String), resolve' u ≠ .error e') (entry : String × Resource)
    (c : ApiCollector) (w : List String) (e' : String) :
    CfnApiProvider.processResource resolve' entry c w ≠ .error e' := by
  intro hcon
  unfold CfnApiProvider.processResource at hcon
  split at hcon
  · cases hE : extractApiResource resolve' entry.2 c with
    | ok c₁ => rw [hE] at hcon; cases hcon
    | error e₂ => exact extractApiResource_ne_error hres entry.2 c e₂ hE
  · split at hcon
    · split at hcon
      · cases hcon
      · cases hcon
    · cases hcon

theorem sam_extractAux_ne_error {resolve' : String → Except String (List Route)}
    (hres : ∀ (u e' : String), resolve' u ≠ .error e')
    (res : List (String × Resource)) :
    ∀ (c : ApiCollector) (w : List String) (e' : String),
      SamApiProvider.extractAux resolve' res c w ≠ .error e' := by
  induction res with
  | nil => intro c w e' hcon; cases hcon
  | cons entry rest ih =>
    intro c w e' hcon
    simp only [SamApiProvider.extractAux] at hcon
    cases hp : SamApiProvider.processResource resolve' entry c w with
    | ok p =>
      obtain ⟨c₁, w₁⟩ := p
      rw [hp] at hcon
      exact ih c₁ w₁ e' hcon
    | error e₂ => exact sam_processResource_ne_error hres entry c w e₂ hp

theorem cfn_extractAux_ne_error {resolve' : String → Except String (List Route)}
    (hres : ∀ (u e' : String), resolve' u ≠ .error e')
    (res : List (String × Resource)) :
    ∀ (c : ApiCollector) (w : List String) (e' : String),
      CfnApiProvider.extractAux resolve' res c w ≠ .error e' := by
  induction res with
  | nil => intro c w e' hcon; cases hcon
  | cons entry rest ih =>
    intro c w e' hcon
    simp only [CfnApiProvider.extractAux] at hcon
    cases hp : CfnApiProvider.processResource resolve' entry c w with
    | ok p =>
      obtain ⟨c₁, w₁⟩ := p
      rw [hp] at hcon
      exact ih c₁ w₁ e' hcon
    | error e₂ => exact cfn_processResource_ne_error hres entry c w e₂ hp

/-! ### Claim theorems -/

/-- C1: within one finalized `Api` produced by an extraction pass, no two
Route entries share the same (path, method) pair; in particular, adding the
same (path, method) route to the Collector twice yields exactly one Route in
the finalized `Api`. -/
theorem api_route_keys_unique :
    (∀ (resolve : String → Except String (List Route))
        (res : List (String × Resource)) (api : Api),
      ApiProvider.extractApi resolve res = .ok api →
      api.routes.Pairwise (fun a b => ¬(a.path = b.path ∧ a.method = b.method))) ∧
    (∀ ops : List CollectorOp,
      ((applyOps ops ApiCollector.empty).getApi.routes).Pairwise
        (fun a b => ¬(a.path = b.path ∧ a.method = b.method))) ∧
    (∀ r₁ r₂ : Route, r₁.path = r₂.path → r₁.method = r₂.method →
      ((ApiCollector.empty.addRoute r₁).addRoute r₂).getApi.routes = [r₁]) := by
  refine ⟨?_, ?_, ?_⟩
  · intro resolve res api h
    simp only [ApiProvider.extractApi] at h
    cases hrun : runProvider resolve (findApiProvider res) res ApiCollector.empty with
    | ok p =>
      obtain ⟨c, w⟩ := p
      rw [hrun] at h
      injection h with h'
      have hd := (stepOK_runProvider resolve _ res _ c w hrun).2 List.Pairwise.nil
      rw [← h']
      exact pairwise_ne_of_distinctKeys hd
    | error e => rw [hrun] at h; cases h
  · intro ops
    exact pairwise_ne_of_distinctKeys
      ((stepOK_applyOps ops ApiCollector.empty).2 List.Pairwise.nil)
  · intro r₁ r₂ hp hm
    have hkey : Route.sameKey r₁ r₂ = true := sameKey_of_eq hp hm
    simp [ApiCollector.addRoute, ApiCollector.getApi, ApiCollector.empty, hkey]

/-- Witness for C1 at the sample extraction pass and a concrete double add. -/
theorem api_route_keys_unique_witness :
    apiSample.routes.Pairwise (fun a b => ¬(a.path = b.path ∧ a.method = b.method)) ∧
    ((ApiCollector.empty.addRoute rSample).addRoute rSample).getApi.routes
      = [rSample] := by
  constructor
  · exact api_route_keys_unique.1 failResolve resSample apiSample (by rfl)
  · exact api_route_keys_unique.2.2 rSample rSample rfl rfl

/-- C2: the dialect selector iterates resources in mapping order, testing
Declarative membership before Explicit-Gateway membership on each resource;
the first resource whose type matches either set determines the result and no
later resource is consulted (the right-hand side does not depend on `post`). -/
theorem find_api_provider_first_match (pre post : List (String × Resource))
    (n : String) (r : Resource)
    (hpre : ∀ e ∈ pre, matchesEither e.2 = false)
    (hr : matchesEither r = true) :
    findApiProvider (pre ++ (n, r) :: post) =
      (if typeMem r.type? SamApiProvider.TYPES then ApiProviderKind.sam
       else ApiProviderKind.cfn) := by
  induction pre with
  | nil =>
    simp only [List.nil_append, findApiProvider]
    by_cases hs : typeMem r.type? SamApiProvider.TYPES = true
    · simp [hs]
    · have hs' : typeMem r.type? SamApiProvider.TYPES = false :=
        Bool.not_eq_true _ ▸ eq_false_of_ne_true hs
      have hc : typeMem r.type? CfnApiProvider.TYPES = true := by
        unfold matchesEither at hr
        rw [hs'] at hr
        simpa using hr
      simp [hs', hc]
  | cons e pre ih =>
    obtain ⟨n₀, r₀⟩ := e
    obtain ⟨hs, hc⟩ := matchesEither_none_types (hpre _ (List.mem_cons_self _ _))
    have hs' : typeMem r₀.type? SamApiProvider.TYPES = false := hs
    have hc' : typeMem r₀.type? CfnApiProvider.TYPES = false := hc
    simp only [List.cons_append, findApiProvider, hs', hc', Bool.false_eq_true,
      if_false]
    exact ih (fun x hx => hpre x (List.mem_cons_of_mem _ hx))

/-- Witness for C2: an Explicit-Gateway resource iterated first wins even
though a Declarative resource follows. -/
theorem find_api_provider_first_match_witness :
    findApiProvider [("Gateway", cfnResource), ("Function", funcResource)]
      = .cfn := by
  have h := find_api_provider_first_match [] [("Function", funcResource)]
    "Gateway" cfnResource (by simp) (by decide)
  exact h.trans (by decide)

/-- C3: when no resource type belongs to either dialect's recognized set
(including the empty mapping), the selector returns the Declarative strategy
and extraction succeeds with an empty `Api`. -/
theorem no_recognized_resources_default
    (resolve : String → Except String (List Route))
    (res : List (String × Resource))
    (h : ∀ e ∈ res, matchesEither e.2 = false) :
    findApiProvider res = .sam ∧
    ApiProvider.extractApi resolve res =
      .ok { routes := [], stageName? := none, stageVariables := []
            binaryMediaTypes := [], cors? := none } := by
  have hf := findApiProvider_default res h
  refine ⟨hf, ?_⟩
  simp only [ApiProvider.extractApi]
  rw [hf]
  have hrun : runProvider resolve .sam res ApiCollector.empty
      = .ok (ApiCollector.empty, []) :=
    sam_extractAux_noMatch resolve res h ApiCollector.empty []
  rw [hrun]
  rfl

/-- Witness for C3 at a mapping holding a single unrecognized resource. -/
theorem no_recognized_resources_default_witness :
    findApiProvider [("Table", otherResource)] = .sam ∧
    ApiProvider.extractApi failResolve [("Table", otherResource)] =
      .ok { routes := [], stageName? := none, stageVariables := []
            binaryMediaTypes := [], cors? := none } :=
  no_recognized_resources_default failResolve [("Table", otherResource)]
    (by decide)

/-- C4: for every constructed provider, `get_all` yields exactly one `Api` —
the one produced by the single extraction pass over the stored resources —
and an `Api` with zero routes is a valid, non-error result. -/
theorem get_all_yields_single_api (resolve : String → Except String (List Route))
    (td : TemplateDict) (po : Option (List (String × String)))
    (cwd : Option String) (p : ApiProviderState)
    (h : ApiProvider.init resolve td po cwd = .ok p) :
    p.getAll = [p.api] ∧ p.getAll.length = 1 ∧
    ApiProvider.extractApi resolve p.resources = .ok p.api ∧
    (∀ (po' : Option (List (String × String))) (cwd' : Option String),
      ApiProvider.init resolve { resources? := some [] } po' cwd' =
        .ok { templateDict := { resources? := some [] }, resources := []
              cwd := cwd', api := emptyApi, routes := [] } ∧
      emptyApi.routes = []) := by
  refine ⟨rfl, rfl, ?_, fun po' cwd' => ⟨rfl, rfl⟩⟩
  simp only [ApiProvider.init, SamBaseProvider.getTemplate] at h
  cases hE : ApiProvider.extractApi resolve (td.resources?.getD []) with
  | ok api =>
    rw [hE] at h
    injection h with h'
    rw [← h']
    exact hE
  | error e => rw [hE] at h; cases h

/-- Witness for C4 at a provider built from an explicitly empty mapping. -/
theorem get_all_yields_single_api_witness :
    pSample.getAll = [pSample.api] ∧ pSample.getAll.length = 1 ∧
    ApiProvider.extractApi failResolve pSample.resources = .ok pSample.api := by
  have h := get_all_yields_single_api failResolve { resources? := some [] }
    none none pSample rfl
  exact ⟨h.1, h.2.1, h.2.2.1⟩

/-- C5: the dialect selector is a deterministic, side-effect-free function of
the resource mapping — running it twice on the same input yields the same
strategy variant. -/
theorem find_api_provider_deterministic (res₁ res₂ : List (String × Resource))
    (h : res₁ = res₂) : findApiProvider res₁ = findApiProvider res₂ :=
  congrArg findApiProvider h

/-- Witness for C5 at the sample resource mapping. -/
theorem find_api_provider_deterministic_witness :
    findApiProvider resSample = findApiProvider resSample :=
  find_api_provider_deterministic resSample resSample rfl

/-- C6: `set_properties` calls are cumulative — a later call's
explicitly-provided fields overwrite the corresponding earlier fields while
omitted fields leave prior values untouched; in particular setting
`stage_name="A"` then separately setting only
`binary_media_types={"image/png"}` yields a finalized `Api` with
`stage_name=="A"` and those binary media types. -/
theorem set_properties_partial_update :
    (∀ (c : ApiCollector) (sn : Option String)
        (sv : Option (List (String × String))) (bmt : Option (List String))
        (cors : Option String),
      ((c.setProperties sn sv bmt cors).stageName?
          = match sn with | some v => some v | none => c.stageName?) ∧
      ((c.setProperties sn sv bmt cors).stageVariables
          = match sv with | some v => v | none => c.stageVariables) ∧
      ((c.setProperties sn sv bmt cors).binaryMediaTypes
          = match bmt with | some v => v | none => c.binaryMediaTypes) ∧
      ((c.setProperties sn sv bmt cors).cors?
          = match cors with | some v => some v | none => c.cors?) ∧
      (c.setProperties sn sv bmt cors).routes = c.routes) ∧
    (((ApiCollector.empty.setProperties (some "A") none none none).setProperties
          none none (some ["image/png"]) none).getApi.stageName? = some "A" ∧
      ((ApiCollector.empty.setProperties (some "A") none none none).setProperties
          none none (some ["image/png"]) none).getApi.binaryMediaTypes
        = ["image/png"]) :=
  ⟨fun _ _ _ _ _ => ⟨rfl, rfl, rfl, rfl, rfl⟩, rfl, rfl⟩

/-- C7: every extraction pass starts from the freshly constructed empty
collector (first conjunct, the shape of `_extract_api`), and the pass's output
collector extends its input collector's routes — so a reused collector would
leak its routes into the next `Api`, and only the empty collector yields an
`Api` holding exactly this pass's routes (second conjunct). -/
theorem extract_api_fresh_collector (resolve : String → Except String (List Route))
    (res : List (String × Resource)) :
    (ApiProvider.extractApi resolve res =
      match runProvider resolve (findApiProvider res) res ApiCollector.empty with
      | .ok (c, _) => .ok c.getApi
      | .error e => .error e) ∧
    (∀ (k : ApiProviderKind) (c c' : ApiCollector) (w' : List String),
      runProvider resolve k res c = .ok (c', w') →
      c'.routes.take c.routes.length = c.routes) := by
  refine ⟨rfl, ?_⟩
  intro k c c' w' h
  obtain ⟨tail, htail⟩ := (stepOK_runProvider resolve k res c c' w' h).1
  rw [htail, List.take_left]

/-- Witness for C7 at the sample resource mapping. -/
theorem extract_api_fresh_collector_witness :
    ApiProvider.extractApi failResolve resSample = .ok apiSample ∧
    (ApiCollector.empty.routes.take ApiCollector.empty.routes.length
      = ApiCollector.empty.routes) := by
  have h := extract_api_fresh_collector failResolve resSample
  refine ⟨h.1.trans (by rfl), ?_⟩
  exact h.2 .sam ApiCollector.empty { routes := [rSample] } [] (by rfl)

/-- C8: during strategy extraction — in either dialect — a resource of a
recognized type whose properties are missing a required field for a route it
implies is skipped with a logged warning and extraction of the remaining
resources continues (conjuncts 1–3: a Declarative function resource never
aborts, a malformed Declarative event is skipped with a warning, a malformed
Explicit-Gateway method resource is skipped with a warning and the walk goes
on), while an unresolvable externally-referenced route-definition document
aborts the pass and propagates to the orchestrator's caller (conjunct 4); it
is the only abort: under a resolver that never fails, no extraction pass of
either strategy can return an error (conjunct 5). -/
theorem strategy_error_policy (resolve : String → Except String (List Route)) :
    (∀ (n : String) (r : Resource) (c : ApiCollector) (w : List String),
      r.type? = some SamApiProvider.SERVERLESS_FUNCTION →
      SamApiProvider.processResource resolve (n, r) c w =
        .ok (SamApiProvider.extractEvents n r.properties.events c w)) ∧
    (∀ (n : String) (ev : HttpEvent) (evs : List HttpEvent) (c : ApiCollector)
        (w : List String),
      routeFromEvent n ev = none →
      SamApiProvider.extractEvents n (ev :: evs) c w =
        SamApiProvider.extractEvents n evs c (w ++ [skipWarning n])) ∧
    (∀ (n : String) (r : Resource) (rest : List (String × Resource))
        (c : ApiCollector) (w : List String),
      r.type? = some CfnApiProvider.APIGATEWAY_METHOD →
      (r.properties.restPath? = none ∨ r.properties.restMethod? = none ∨
        r.properties.restTarget? = none) →
      CfnApiProvider.extractAux resolve ((n, r) :: rest) c w =
        CfnApiProvider.extractAux resolve rest c (w ++ [skipWarning n])) ∧
    (∀ (n u e : String) (r : Resource) (res : List (String × Resource)),
      r.type? = some SamApiProvider.SERVERLESS_API →
      r.properties.definitionBody? = none →
      r.properties.definitionUri? = some u →
      resolve u = .error e →
      ApiProvider.extractApi resolve ((n, r) :: res) = .error e) ∧
    (∀ (resolve' : String → Except String (List Route)),
      (∀ (u e' : String), resolve' u ≠ .error e') →
      ∀ (k : ApiProviderKind) (res : List (String × Resource))
        (c : ApiCollector) (e' : String),
        runProvider resolve' k res c ≠ .error e') := by
  refine ⟨?_, ?_, ?_, ?_, ?_⟩
  · intro n r c w ht
    simp only [SamApiProvider.processResource]
    rw [if_pos ht]
  · intro n ev evs c w hre
    simp only [SamApiProvider.extractEvents]
    rw [hre]
  · intro n r rest c w ht hmiss
    have hne1 : r.type? ≠ some CfnApiProvider.APIGATEWAY_RESTAPI := by
      rw [ht]
      decide
    simp only [CfnApiProvider.extractAux, CfnApiProvider.processResource]
    rw [if_neg hne1, if_pos ht]
    cases hP : r.properties.restPath? with
    | none => rfl
    | some p =>
      cases hM : r.properties.restMethod? with
      | none => rfl
      | some m =>
        cases hT : r.properties.restTarget? with
        | none => rfl
        | some t =>
          exfalso
          rcases hmiss with h | h | h
          · rw [hP] at h; cases h
          · rw [hM] at h; cases h
          · rw [hT] at h; cases h
  · intro n u e r res ht hb hu hr
    have hne : r.type? ≠ some SamApiProvider.SERVERLESS_FUNCTION := by
      rw [ht]
      decide
    have hmem : typeMem r.type? SamApiProvider.TYPES = true := by
      rw [ht]
      decide
    have hfind : findApiProvider ((n, r) :: res) = .sam := by
      simp [findApiProvider, hmem]
    have hp : SamApiProvider.processResource resolve (n, r) ApiCollector.empty []
        = .error e := by
      simp only [SamApiProvider.processResource]
      rw [if_neg hne, if_pos ht]
      simp only [extractApiResource, hb, hu, hr]
    have hrun : runProvider resolve .sam ((n, r) :: res) ApiCollector.empty
        = .error e := by
      show SamApiProvider.extractAux resolve ((n, r) :: res) ApiCollector.empty []
        = .error e
      simp only [SamApiProvider.extractAux]
      rw [hp]
    simp only [ApiProvider.extractApi]
    rw [hfind, hrun]
  · intro resolve' hres k res c e'
    cases k with
    | sam => exact sam_extractAux_ne_error hres res c [] e'
    | cfn => exact cfn_extractAux_ne_error hres res c [] e'

/-- Witness for C8: a well-typed function resource is processed whole, a
malformed Declarative event and a malformed Explicit-Gateway method resource
are each skipped with a warning, and a failing external resolver aborts the
pass with its error. -/
theorem strategy_error_policy_witness :
    SamApiProvider.processResource failResolve ("F", funcResource)
        ApiCollector.empty [] =
      .ok (SamApiProvider.extractEvents "F" funcResource.properties.events
        ApiCollector.empty []) ∧
    SamApiProvider.extractEvents "F" [malformedEvent] ApiCollector.empty [] =
      SamApiProvider.extractEvents "F" [] ApiCollector.empty
        ([] ++ [skipWarning "F"]) ∧
    CfnApiProvider.extractAux failResolve [("M", methodResourceMalformed)]
        ApiCollector.empty [] =
      CfnApiProvider.extractAux failResolve [] ApiCollector.empty
        ([] ++ [skipWarning "M"]) ∧
    ApiProvider.extractApi failResolve [("Rest", apiResourceBadUri)] =
      .error "boom" := by
  have h := strategy_error_policy failResolve
  exact ⟨h.1 "F" funcResource ApiCollector.empty [] rfl,
    h.2.1 "F" malformedEvent [] ApiCollector.empty [] rfl,
    h.2.2.1 "M" methodResourceMalformed [] ApiCollector.empty [] rfl
      (Or.inr (Or.inr rfl)),
    h.2.2.2.1 "Rest" "swagger.yaml" "boom" apiResourceBadUri [] rfl rfl rfl rfl⟩

/-- C9: the selector is total over arbitrary resource mappings — an entry
lacking a `Type` key matches neither dialect (first conjunct), any entry
matching neither set is transparent to selection (second conjunct), and the
selector always returns one of the two strategies (third conjunct). -/
theorem find_api_provider_total :
    (∀ r : Resource, r.type? = none → matchesEither r = false) ∧
    (∀ (pre post : List (String × Resource)) (n : String) (r : Resource),
      matchesEither r = false →
      findApiProvider (pre ++ (n, r) :: post) = findApiProvider (pre ++ post)) ∧
    (∀ res : List (String × Resource),
      findApiProvider res = .sam ∨ findApiProvider res = .cfn) := by
  refine ⟨?_, ?_, ?_⟩
  · intro r h
    unfold matchesEither typeMem
    rw [h]
    rfl
  · intro pre post n r h
    obtain ⟨hs, hc⟩ := matchesEither_none_types h
    induction pre with
    | nil =>
      simp only [List.nil_append, findApiProvider, hs, hc, Bool.false_eq_true,
        if_false]
    | cons e pre ih =>
      obtain ⟨n₀, r₀⟩ := e
      simp only [List.cons_append, findApiProvider, List.append_eq]
      rw [ih]
  · intro res
    induction res with
    | nil => exact Or.inl rfl
    | cons e rest ih =>
      obtain ⟨n₀, r₀⟩ := e
      simp only [findApiProvider]
      by_cases h₁ : typeMem r₀.type? SamApiProvider.TYPES = true
      · simp [h₁]
      · by_cases h₂ : typeMem r₀.type? CfnApiProvider.TYPES = true
        · simp [h₁, h₂]
        · simpa [h₁, h₂] using ih

/-- Witness for C9 at a resource entry lacking a `Type` key. -/
theorem find_api_provider_total_witness :
    matchesEither { type? := none } = false ∧
    findApiProvider [("X", { type? := none })] = findApiProvider [] := by
  refine ⟨find_api_provider_total.1 { type? := none } rfl, ?_⟩
  exact find_api_provider_total.2.1 [] [] "X" { type? := none }
    (find_api_provider_total.1 { type? := none } rfl)

/-- C10: a normalized template with no `"Resources"` key is treated
identically to one whose `"Resources"` mapping is empty — the provider
substitutes an empty mapping, extraction proceeds, and both constructions
yield the same empty `Api` rather than failing. -/
theorem missing_resources_key (resolve : String → Except String (List Route))
    (po : Option (List (String × String))) (cwd : Option String)
    (t : TemplateDict) (h : t.resources? = none) :
    ApiProvider.init resolve t po cwd =
      .ok { templateDict := t, resources := [], cwd := cwd, api := emptyApi
            routes := [] } ∧
    ApiProvider.init resolve { resources? := some [] } po cwd =
      .ok { templateDict := { resources? := some [] }, resources := []
            cwd := cwd, api := emptyApi, routes := [] } ∧
    emptyApi.routes = [] := by
  refine ⟨?_, rfl, rfl⟩
  simp only [ApiProvider.init, SamBaseProvider.getTemplate, h]
  rfl

/-- Witness for C10 at a template holding no `"Resources"` key. -/
theorem missing_resources_key_witness :
    ApiProvider.init failResolve { resources? := none } none none =
      .ok { templateDict := { resources? := none }, resources := [], cwd := none
            api := emptyApi, routes := [] } ∧
    emptyApi.routes = [] := by
  have h := missing_resources_key failResolve none none { resources? := none } rfl
  exact ⟨h.1, h.2.2⟩

end SamCli
